import Mathlib

/-!
# Verification of the cryptachat real-time delivery subsystem

Shallow embedding of the Go sources of `cryptachat` (websocket hub,
send-message HTTP handler, message-store query) together with proofs of the
specification's testable properties.

Conventions of the embedding:

* Go channels are modelled explicitly.  A buffered channel is a bounded list
  of pending values together with its capacity and a `closed` flag.  A
  non-blocking send (`select` with a `default` arm) is ready exactly when the
  buffer has free space or a receiver is parked on the channel; for the hub's
  three input channels, which `NewHub` creates unbuffered, readiness reduces
  to "a receiver is parked right now".
* Pointer identity of `*Client` values (Go compares `h.clients[uid] == client`
  by pointer) is modelled by a numeric instance id `cid`; the state of each
  client's `send` channel is kept in a map indexed by `cid`.
* `json.Marshal` of the `interface{}` payload is modelled abstractly: a
  payload either serializes to a frame or fails, which is all the hub code
  observes.
* One iteration of `Hub.Run`'s `select` is the function `hubStep`.  Its
  outcome is either `next` (the case body ran to completion and the loop
  returns to the `select`), `blockedSendUnregister` (the case body is stuck
  in a channel send on the hub's own `unregister` channel), or `panicked`
  (a channel operation that panics in Go, e.g. `close` of a closed channel).
-/

namespace Cryptachat

/-- A serialized JSON frame (the result of `json.Marshal`). -/
abbrev Frame := String

/-- The `interface{}` payload of a `MessageJob`, abstracted to what
`Hub.Run` observes about it: either `json.Marshal` succeeds with some frame
or it fails. -/
inductive Payload where
  | serializable (frame : Frame)
  | unserializable
deriving DecidableEq, Repr

/-- `json.Marshal job.Message`: `some frame` on success, `none` on error. -/
def Payload.marshal : Payload → Option Frame
  | .serializable frame => some frame
  | .unserializable => none

/-- A `*websockets.Client`.  `cid` models pointer identity of the Go value;
`userID` is the field of the same name.  The state of the client's `send`
channel lives in `HubState.sendQ`, indexed by `cid`. -/
structure Client where
  cid : Nat
  userID : Int
deriving DecidableEq, Repr

/-- A `websockets.MessageJob`: target user and the `interface{}` payload. -/
structure MessageJob where
  userID : Int
  message : Payload
deriving DecidableEq, Repr

/-- The state of one buffered Go channel of frames (a client's `send`
channel): pending buffer, capacity, and whether it has been closed. -/
structure QueueState where
  buf : List Frame
  cap : Nat
  closed : Bool
deriving DecidableEq, Repr

/-- The hub's mutable state: the `clients` map (Go map semantics: at most one
value per key, modelled as a function into `Option`) and the state of every
client instance's `send` channel, indexed by client instance id. -/
structure HubState where
  clients : Int → Option Client
  sendQ : Nat → QueueState

/-- `h.clients[uid] = v` (insert/replace) or `delete(h.clients, uid)`. -/
def HubState.setClient (s : HubState) (uid : Int) (v : Option Client) : HubState :=
  { s with clients := fun u => if u = uid then v else s.clients u }

/-- `close(send)` on the channel of client instance `i`. -/
def HubState.closeQ (s : HubState) (i : Nat) : HubState :=
  { s with sendQ := fun k =>
      if k = i then { s.sendQ k with closed := true } else s.sendQ k }

/-- Buffered-channel send that succeeded: append the frame to the buffer of
client instance `i`. -/
def HubState.enqueue (s : HubState) (i : Nat) (f : Frame) : HubState :=
  { s with sendQ := fun k =>
      if k = i then { s.sendQ k with buf := (s.sendQ k).buf ++ [f] } else s.sendQ k }

/-- One value received from the hub's `select`: a registration, an
unregistration, or a push job. -/
inductive Event where
  | register (c : Client)
  | unregister (c : Client)
  | push (j : MessageJob)
deriving DecidableEq, Repr

/-- Log lines emitted by `hub.go`, with the formatted user id. -/
def reconnectLog (uid : Int) : String :=
  s!"WS: User {uid} re-connected. Disconnecting old client."

def registeredLog (uid : Int) : String :=
  s!"WS: Client registered for user {uid}"

def unregisteredLog (uid : Int) : String :=
  s!"WS: Client unregistered for user {uid}"

def marshalFailLog (uid : Int) : String :=
  s!"WS: Failed to marshal message for user {uid}"

def queueFullLog (uid : Int) : String :=
  s!"WS: Client queue full for user {uid}. Disconnecting."

def notConnectedLog (uid : Int) : String :=
  s!"WS: User {uid} not connected, cannot push message."

def hubFullLog (uid : Int) : String :=
  s!"WS: Hub push channel is full. Dropping message for user {uid}."

/-- The Go runtime panic message for `close` of a closed channel. -/
def closeClosedMsg : String := "close of closed channel"

/-- The Go runtime panic message for a send on a closed channel. -/
def sendClosedMsg : String := "send on closed channel"

/-- Outcome of one iteration of `Hub.Run`'s `select` on a received event. -/
inductive StepOutcome where
  | next (s : HubState) (logs : List String)
  | blockedSendUnregister (c : Client) (s : HubState) (logs : List String)
  | panicked (msg : String)

/-- One iteration of the `for { select { ... } }` loop of `Hub.Run`
(src/websockets/hub.go), given the event received from whichever channel
fired.

* `register` case: if `oldClient` is present under the same user id, run
  `close(oldClient.send)` (a Go panic if that channel is already closed),
  `delete`, then insert the new client.
* `unregister` case: delete and `close(client.send)` only when the map entry
  is pointer-equal to the event's client; otherwise nothing happens.
* `push` case: look up the client; if absent, log and continue.  Otherwise
  marshal; on error, log and `continue`.  Otherwise a `select` with a
  `default` arm sends on `client.send`: if that channel is closed the send
  panics; if the buffer has space the frame is enqueued; otherwise the
  `default` arm executes `h.unregister <- client` — a *blocking* send on the
  hub's own unbuffered `unregister` channel, whose only receiver in the whole
  program is this very loop, so the loop never completes the iteration.
  That stuck configuration is the `blockedSendUnregister` outcome; the state
  it carries is the state at the moment of blocking (unchanged). -/
def hubStep (s : HubState) (ev : Event) : StepOutcome :=
  match ev with
  | .register c =>
      match s.clients c.userID with
      | some oldClient =>
          if (s.sendQ oldClient.cid).closed then
            .panicked closeClosedMsg
          else
            .next (((s.closeQ oldClient.cid).setClient c.userID none).setClient
                    c.userID (some c))
              [reconnectLog c.userID, registeredLog c.userID]
      | none =>
          .next (s.setClient c.userID (some c)) [registeredLog c.userID]
  | .unregister c =>
      match s.clients c.userID with
      | some cur =>
          if cur = c then
            if (s.sendQ c.cid).closed then
              .panicked closeClosedMsg
            else
              .next ((s.setClient c.userID none).closeQ c.cid)
                [unregisteredLog c.userID]
          else
            .next s []
      | none => .next s []
  | .push j =>
      match s.clients j.userID with
      | some client =>
          match j.message.marshal with
          | none => .next s [marshalFailLog j.userID]
          | some frame =>
              let q := s.sendQ client.cid
              if q.closed then
                .panicked sendClosedMsg
              else if q.buf.length < q.cap then
                .next (s.enqueue client.cid frame) []
              else
                .blockedSendUnregister client s [queueFullLog j.userID]
      | none => .next s [notConnectedLog j.userID]

/-! ## `NewHub` and `Hub.PushToUser` -/

/-- The capacities of the hub's three input channels, as fixed by the
`make(chan ...)` calls in `NewHub`. -/
structure HubChans where
  registerCap : Nat
  unregisterCap : Nat
  pushCap : Nat
deriving DecidableEq, Repr

/-- `NewHub` (src/websockets/hub.go): `register`, `unregister` and `push` are
each created by `make(chan T)` with no capacity argument, i.e. unbuffered. -/
def newHubChans : HubChans :=
  { registerCap := 0, unregisterCap := 0, pushCap := 0 }

/-- `NewHub` also starts with an empty `clients` map.  Channel states of
not-yet-constructed clients are immaterial; they are initialised open and
empty. -/
def newHubState : HubState :=
  { clients := fun _ => none, sendQ := fun _ => { buf := [], cap := 0, closed := false } }

/-- Outcome of `Hub.PushToUser`: the job was handed to the hub's `push`
channel, or it was dropped with the diagnostic log line. -/
inductive SubmitOutcome where
  | enqueued (j : MessageJob)
  | dropped (log : String)
deriving DecidableEq, Repr

/-- `Hub.PushToUser` (src/websockets/hub.go): builds the job and runs
`select { case h.push <- job: default: log }`.  By Go channel semantics the
send arm is ready exactly when the channel's buffer has free space
(`pushPending < pushCap`) or a receiver is parked on a matching receive
(`receiverReady` — for the unbuffered `push` channel this means the hub loop
is currently parked at its `select`).  Otherwise the `default` arm runs and
the job is dropped with a log line.  Either way the caller returns
immediately; there is no blocking branch. -/
def pushToUser (receiverReady : Bool) (pushCap pushPending : Nat)
    (userID : Int) (message : Payload) : SubmitOutcome :=
  if receiverReady || decide (pushPending < pushCap) then
    .enqueued { userID := userID, message := message }
  else
    .dropped (hubFullLog userID)

/-! ## `Server.handleSendMessage` (src/myhttp/handlers.go) -/

/-- The decoded JSON body of a `POST /send_message` request
(`sendMessagePayload`). -/
structure SendMessagePayload where
  recipientUsername : String
  senderBlob : String
  recipientBlob : String
deriving DecidableEq, Repr

/-- The observable actions of `handleSendMessage`, in program order:
a call to `store.SendMessage`, a call to `hub.PushToUser`, or writing the
HTTP response (status code and message/error body). -/
inductive SendStep where
  | persist (senderID : Int) (recipientUsername senderBlob recipientBlob : String)
  | pushToUserCall (userID : Int)
  | respond (status : Nat) (body : String)
deriving DecidableEq, Repr

/-- Whether a step is a `hub.PushToUser` invocation. -/
def SendStep.isPushCall : SendStep → Bool
  | .pushToUserCall _ => true
  | _ => false

/-- `strings.Contains`. -/
def strContains (s pat : String) : Bool := (s.splitOn pat).length != 1

def ctxErrBody : String := "Could not get user from context"

def invalidJSONBody : String := "Invalid JSON body"

def missingFieldsBody : String :=
  "Missing recipient_username, sender_blob, or recipient_blob"

def notFoundErrStr : String := "recipient user not found"

def notFoundBody : String := "Recipient user not found."

def sentOkBody : String := "Message sent successfully."

/-- `Server.handleSendMessage` (src/myhttp/handlers.go), as the trace of its
observable actions.  Inputs abstract the request context: whether
`getUserFromContext` succeeded and with which user id, the decoded body
(`none` models a JSON decoding error), and the result of the
`store.SendMessage` call (`Except.error e` models a non-nil `error` whose
`Error()` string is `e`).

The handler: context failure → 500; bad JSON → 400; a missing field → 400;
otherwise it calls `store.SendMessage(ctx, currentUser.ID,
payload.RecipientUsername, payload.SenderBlob, payload.RecipientBlob)` and
responds 404/500 on error, 201 on success.  Note that it performs no other
call: in particular `hub.PushToUser` is never invoked on any path. -/
def handleSendMessage (authOk : Bool) (senderID : Int)
    (body : Option SendMessagePayload) (storeResult : Except String Unit) :
    List SendStep :=
  if !authOk then [.respond 500 ctxErrBody]
  else
    match body with
    | none => [.respond 400 invalidJSONBody]
    | some p =>
        if p.recipientUsername = "" ∨ p.senderBlob = "" ∨ p.recipientBlob = "" then
          [.respond 400 missingFieldsBody]
        else
          SendStep.persist senderID p.recipientUsername p.senderBlob p.recipientBlob ::
          match storeResult with
          | .error e =>
              if strContains e notFoundErrStr then [.respond 404 notFoundBody]
              else [.respond 500 e]
          | .ok _ => [.respond 201 sentOkBody]

/-! ## `PostgresStore.GetMessages` (store/postgres.go) -/

/-- A row of the `messages` table.  Timestamps are modelled by their
ordering only. -/
structure MessageRow where
  id : Int
  senderId : Int
  recipientId : Int
  timestamp : Int
  senderBlob : String
  recipientBlob : String
deriving DecidableEq, Repr

/-- A `store.Message` as returned by `GetMessages`: one row of the query's
SELECT list. -/
structure MessageOut where
  id : Int
  senderId : Int
  recipientId : Int
  timestamp : Int
  senderUsername : String
  encryptedBlob : String
deriving DecidableEq, Repr

/-- The WHERE clause: `((m.sender_id = $1 AND m.recipient_id = $2) OR
(m.sender_id = $2 AND m.recipient_id = $1)) AND m.id > $3` with `$1 = myID`,
`$2 = partnerID`, `$3 = sinceID`. -/
def rowInConversation (myID partnerID sinceID : Int) (m : MessageRow) : Bool :=
  ((m.senderId == myID && m.recipientId == partnerID) ||
   (m.senderId == partnerID && m.recipientId == myID)) && decide (sinceID < m.id)

/-- The SELECT list together with the
`JOIN users u_sender ON u_sender.id = m.sender_id`: a row whose sender id
has no row in `users` (modelled as a map keyed by the primary key `id`)
produces no output row; otherwise the output carries the sender's username
and the `CASE WHEN m.sender_id = $1 THEN m.sender_blob ELSE m.recipient_blob
END` blob. -/
def selectRow (myID : Int) (users : Int → Option String) (m : MessageRow) :
    Option MessageOut :=
  match users m.senderId with
  | none => none
  | some nm =>
      some { id := m.id, senderId := m.senderId, recipientId := m.recipientId,
             timestamp := m.timestamp, senderUsername := nm,
             encryptedBlob := if m.senderId = myID then m.senderBlob else m.recipientBlob }

/-- `ORDER BY m.timestamp ASC`. -/
def tsLe (a b : MessageOut) : Bool := decide (a.timestamp ≤ b.timestamp)

/-- The semantics of the SQL query run by `PostgresStore.GetMessages`
(store/postgres.go) over a table state: JOIN+WHERE, SELECT, ORDER BY.
(The Go function first resolves the partner's username to `partnerID` via
`GetUserIDByUsername`; the query itself ranges over identities, which is
what is modelled here.) -/
def getMessagesQuery (users : Int → Option String) (msgs : List MessageRow)
    (myID partnerID sinceID : Int) : List MessageOut :=
  List.mergeSort
    ((msgs.filter (rowInConversation myID partnerID sinceID)).filterMap
      (selectRow myID users))
    tsLe

/-! ## `Server.handleServeWS` (src/myhttp/server.go) -/

/-- The observable actions of `handleServeWS` in program order.
`registerClient` is the completed `client.Register()` call; `Register` sends
the client on the hub's unbuffered `register` channel (a rendezvous: the
call returns only once the hub loop has received the client), so when the
action is in the trace the hub has registered the connection. -/
inductive WSAction where
  | construct (uid : Int)
  | registerClient (uid : Int)
  | startWritePump (uid : Int)
  | startReadPump (uid : Int)
deriving DecidableEq, Repr

/-- `Server.handleServeWS` (src/myhttp/server.go): on context failure or a
failed websocket upgrade it returns early with no client-related action;
otherwise it constructs the client with the verified user's id
(`websockets.NewClient(s.hub, conn, currentUser.ID)`), calls
`client.Register()`, and only then starts the two pumps
(`go client.WritePump()`, `go client.ReadPump()`).

Modelled from the spec in part: the bodies of `Client.Register` and the two
pumps (client.go) are not in the tree; per the spec and the call-site
comment, `Register` hands the client to the hub's register channel, which is
all this trace records. -/
def handleServeWS (authOk : Bool) (uid : Int) (upgradeOk : Bool) : List WSAction :=
  if !authOk then []
  else if !upgradeOk then []
  else [.construct uid, .registerClient uid, .startWritePump uid, .startReadPump uid]

/-! ## Theorems -/

/-- Concrete clients and hub states used to instantiate the theorems. -/
def wOld : Client := { cid := 0, userID := 1 }

def wNew : Client := { cid := 1, userID := 1 }

def wFrame : Frame := "{}"

/-- A state in which user 1 has the registered client `wOld` with an open,
empty queue of capacity 8. -/
def wState : HubState :=
  { clients := fun u => if u = 1 then some wOld else none,
    sendQ := fun _ => { buf := [], cap := 8, closed := false } }

/-- **C2.** For every sequence of `Register` events with the same user
identity processed by the control loop, at most one Connection for that
identity is registered in the `clients` map at any instant (the map is
keyed by user id, and after the event the key holds exactly the new
client); when a `Register` event finds an existing Connection for that
identity, the old Connection's send queue is closed and its map entry
removed before the new Connection is inserted (in the resulting state the
old queue is closed, the entry holds the new client, and nothing else
changed).  Since the state `s` is arbitrary, this covers every instant of
every event sequence.  The hypothesis is the standing channel invariant
that a registered client's send channel has not been closed (`close` of a
closed channel would panic, and the hub closes a channel only when removing
its entry). -/
theorem hub_register_single_connection (s : HubState) (c : Client)
    (hopen : ∀ old, s.clients c.userID = some old → (s.sendQ old.cid).closed = false) :
    ∃ s' logs, hubStep s (.register c) = .next s' logs ∧
      s'.clients c.userID = some c ∧
      (∀ d, s'.clients c.userID = some d → d = c) ∧
      (∀ u, u ≠ c.userID → s'.clients u = s.clients u) ∧
      (∀ old, s.clients c.userID = some old → (s'.sendQ old.cid).closed = true) ∧
      (∀ i, (∀ old, s.clients c.userID = some old → i ≠ old.cid) →
        s'.sendQ i = s.sendQ i) := by
  cases h : s.clients c.userID with
  | none =>
      refine ⟨s.setClient c.userID (some c), [registeredLog c.userID],
        ?_, ?_, ?_, ?_, ?_, ?_⟩
      · simp [hubStep, h]
      · simp [HubState.setClient]
      · simp [HubState.setClient]
      · intro u hu; simp [HubState.setClient, hu]
      · intro old hold; simp at hold
      · intro i _; rfl
  | some old =>
      have hcl : (s.sendQ old.cid).closed = false := hopen old h
      refine ⟨((s.closeQ old.cid).setClient c.userID none).setClient c.userID (some c),
        [reconnectLog c.userID, registeredLog c.userID], ?_, ?_, ?_, ?_, ?_, ?_⟩
      · simp [hubStep, h, hcl]
      · simp [HubState.setClient]
      · simp [HubState.setClient]
      · intro u hu; simp [HubState.setClient, HubState.closeQ, hu]
      · intro old' hold'
        cases hold'
        simp [HubState.setClient, HubState.closeQ]
      · intro i hi
        have hne : i ≠ old.cid := hi old rfl
        simp [HubState.setClient, HubState.closeQ, hne]

/-- Witness for `hub_register_single_connection` at the concrete state
`wState`: registering `wNew` for user 1 supersedes `wOld`, whose queue ends
up closed. -/
theorem hub_register_single_connection_witness :
    ∃ s' logs, hubStep wState (.register wNew) = .next s' logs ∧
      s'.clients 1 = some wNew ∧ (s'.sendQ 0).closed = true := by
  obtain ⟨s', logs, h1, h2, _, _, h5, _⟩ :=
    hub_register_single_connection wState wNew (by
      intro old hold
      have h1 : wState.clients wNew.userID = some wOld := rfl
      rw [h1] at hold
      cases hold
      rfl)
  exact ⟨s', logs, h1, h2, h5 wOld (by simp [wState, wNew, wOld])⟩

/-- **C3.** Unregister is idempotent and instance-matched: the event removes
the map entry and closes the send queue only when the entry is the exact
same client instance; when the entry is absent or holds a different
(superseding) instance the event is a no-op.  In every case the outcome is
`next` — never a panic — and running the same unregister event again on the
resulting state is a no-op, so no queue is ever closed twice.  The
hypothesis is the standing invariant that a registered client's queue is
still open. -/
theorem hub_unregister_idempotent (s : HubState) (c : Client)
    (hopen : s.clients c.userID = some c → (s.sendQ c.cid).closed = false) :
    ∃ s' logs, hubStep s (.unregister c) = .next s' logs ∧
      (s.clients c.userID = some c →
        s'.clients c.userID = none ∧ (s'.sendQ c.cid).closed = true) ∧
      (s.clients c.userID ≠ some c → s' = s) ∧
      hubStep s' (.unregister c) = .next s' [] := by
  cases h : s.clients c.userID with
  | none =>
      refine ⟨s, [], ?_, ?_, fun _ => rfl, ?_⟩
      · simp [hubStep, h]
      · intro hc; simp at hc
      · simp [hubStep, h]
  | some cur =>
      by_cases hc : cur = c
      · subst hc
        have hcl := hopen h
        refine ⟨(s.setClient cur.userID none).closeQ cur.cid,
          [unregisteredLog cur.userID], ?_, ?_, ?_, ?_⟩
        · simp [hubStep, h, hcl]
        · intro _
          constructor
          · simp [HubState.setClient, HubState.closeQ]
          · simp [HubState.setClient, HubState.closeQ]
        · intro hne; exact absurd rfl hne
        · have h2 : ((s.setClient cur.userID none).closeQ cur.cid).clients
              cur.userID = none := by
            simp [HubState.setClient, HubState.closeQ]
          simp [hubStep, h2]
      · refine ⟨s, [], ?_, ?_, fun _ => rfl, ?_⟩
        · simp [hubStep, h, hc]
        · intro hsome; exact absurd (Option.some.inj hsome) hc
        · simp [hubStep, h, hc]

/-- Witness for `hub_unregister_idempotent`: unregistering `wOld` from
`wState` removes the entry and closes its queue, and a second unregister of
the same instance is a no-op. -/
theorem hub_unregister_idempotent_witness :
    ∃ s' logs, hubStep wState (.unregister wOld) = .next s' logs ∧
      s'.clients 1 = none ∧ (s'.sendQ 0).closed = true ∧
      hubStep s' (.unregister wOld) = .next s' [] := by
  obtain ⟨s', logs, h1, h2, _, h4⟩ :=
    hub_unregister_idempotent wState wOld (fun _ => rfl)
  obtain ⟨h2a, h2b⟩ := h2 rfl
  exact ⟨s', logs, h1, h2a, h2b, h4⟩

/-- The state with no registered clients, and a job aimed at user 5. -/
def wJobOffline : MessageJob := { userID := 5, message := .serializable wFrame }

/-- **C4.** A push job whose target identity has no registered connection is
handled without panicking: the state is returned unchanged (no map change,
no queue change, no frame), the only effect is the diagnostic log line, and
the outcome is `next`, so the loop proceeds to the following event. -/
theorem hub_push_offline (s : HubState) (j : MessageJob)
    (habs : s.clients j.userID = none) :
    hubStep s (.push j) = .next s [notConnectedLog j.userID] := by
  simp [hubStep, habs]

/-- Witness for `hub_push_offline`: pushing to user 5 on the empty hub state
is a logged no-op. -/
theorem hub_push_offline_witness :
    hubStep newHubState (.push wJobOffline) =
      .next newHubState [notConnectedLog 5] :=
  hub_push_offline newHubState wJobOffline rfl

/-- A job for user 1 whose payload fails `json.Marshal`. -/
def wJobBadPayload : MessageJob := { userID := 1, message := .unserializable }

/-- **C7.** A push job whose target is registered but whose payload fails
JSON serialization is dropped with a diagnostic: the outcome is `next` with
the state unchanged — no frame is enqueued, no connection is unregistered,
no queue is touched — and the loop continues with the next event. -/
theorem hub_push_marshal_failure (s : HubState) (j : MessageJob) (c : Client)
    (hc : s.clients j.userID = some c) (hm : j.message.marshal = none) :
    hubStep s (.push j) = .next s [marshalFailLog j.userID] := by
  simp [hubStep, hc, hm]

/-- Witness for `hub_push_marshal_failure`: with `wOld` registered for user
1 in `wState`, a job with an unserializable payload is logged and dropped,
leaving the state unchanged. -/
theorem hub_push_marshal_failure_witness :
    hubStep wState (.push wJobBadPayload) =
      .next wState [marshalFailLog 1] :=
  hub_push_marshal_failure wState wJobBadPayload wOld rfl rfl

/-- A client for user 7 whose send queue (capacity 1) is full. -/
def c1Client : Client := { cid := 2, userID := 7 }

/-- State for the full-queue scenario: user 7 is registered with a stalled
consumer — the queue holds one frame out of capacity 1. -/
def c1State : HubState :=
  { clients := fun u => if u = 7 then some c1Client else none,
    sendQ := fun i =>
      if i = 2 then { buf := [wFrame], cap := 1, closed := false }
      else { buf := [], cap := 0, closed := false } }

/-- A serializable job for user 7. -/
def c1Job : MessageJob := { userID := 7, message := .serializable wFrame }

/-- **C1 (code bug).** Handling a push job for an identity whose registered
connection has a full outbound queue does *not* complete and does *not*
unregister the connection: the loop body reaches `h.unregister <- client`,
a send on the hub's own unbuffered `unregister` channel.  The only receive
on that channel in the entire program is this very loop's `select`, which
cannot run while the loop is blocked in the send, so the control loop is
stuck forever.  At the blocked configuration the state is unchanged: the
client is still registered and its queue is still open, and no subsequent
register/unregister/push event can ever be processed.  This contradicts the
claim (and the spec's drop-not-block policy), which the code clearly
intends: the loop should have deleted the entry and closed the queue
inline. -/
theorem hub_push_full_queue_blocks_loop :
    hubStep c1State (.push c1Job) =
      .blockedSendUnregister c1Client c1State [queueFullLog 7] ∧
    c1State.clients 7 = some c1Client ∧
    (c1State.sendQ 2).closed = false := by
  refine ⟨?_, rfl, rfl⟩
  simp [hubStep, c1State, c1Job, c1Client, Payload.marshal]

/-- **C5.** `Hub.PushToUser` returns without suspending the caller: the
`select` with a `default` arm either hands the job to the hub's `push`
channel — exactly when that channel can accept it immediately (a parked
receiver, or buffer space) — or drops it with the diagnostic log line.
There is no blocking branch: the embedding is a total function whose two
outcomes are the immediate enqueue and the logged drop. -/
theorem pushToUser_nonblocking (r : Bool) (cap pending : Nat)
    (uid : Int) (m : Payload) :
    (r = true ∨ pending < cap →
      pushToUser r cap pending uid m = .enqueued { userID := uid, message := m }) ∧
    (r = false → ¬ pending < cap →
      pushToUser r cap pending uid m = .dropped (hubFullLog uid)) := by
  constructor
  · intro h
    rcases h with h | h <;> simp [pushToUser, h]
  · intro hr hlt
    simp [pushToUser, hr, hlt]

/-- Witness for `pushToUser_nonblocking`: with a ready receiver the job for
user 3 is enqueued; with no receiver and no buffer it is dropped with the
log line. -/
theorem pushToUser_nonblocking_witness :
    pushToUser true 0 0 3 .unserializable =
      .enqueued { userID := 3, message := .unserializable } ∧
    pushToUser false 0 0 3 .unserializable = .dropped (hubFullLog 3) :=
  ⟨(pushToUser_nonblocking true 0 0 3 .unserializable).1 (Or.inl rfl),
   (pushToUser_nonblocking false 0 0 3 .unserializable).2 rfl (by decide)⟩

/-- **C10.** `NewHub` creates all three input channels unbuffered
(`make(chan T)` with no capacity), so a `PushToUser` call can hand its job
over only by rendezvous with the control loop's `select`: with the loop not
parked at a receive (`receiverReady = false`) the job is dropped no matter
what, even on an idle system with the recipient online, and an `enqueued`
outcome on a zero-capacity channel forces `receiverReady = true`.  In
particular, after a first call is accepted the loop is busy handling it, so
a second call with no intervening return of the loop to its `select` finds
`receiverReady = false` and is dropped. -/
theorem newHub_unbuffered_rendezvous :
    newHubChans.registerCap = 0 ∧ newHubChans.unregisterCap = 0 ∧
    newHubChans.pushCap = 0 ∧
    (∀ pending uid m,
      pushToUser false newHubChans.pushCap pending uid m =
        .dropped (hubFullLog uid)) ∧
    (∀ r pending uid m j,
      pushToUser r newHubChans.pushCap pending uid m = .enqueued j →
        r = true) := by
  refine ⟨rfl, rfl, rfl, ?_, ?_⟩
  · intro pending uid m
    simp [pushToUser, newHubChans]
  · intro r pending uid m j h
    cases r with
    | true => rfl
    | false =>
        rw [show pushToUser false newHubChans.pushCap pending uid m =
          .dropped (hubFullLog uid) by simp [pushToUser, newHubChans]] at h
        cases h

/-- Witness for `newHub_unbuffered_rendezvous`: a second consecutive call
(no receiver parked) for user 9 is dropped, and an accepted call implies a
ready receiver. -/
theorem newHub_unbuffered_rendezvous_witness :
    pushToUser false newHubChans.pushCap 0 9 .unserializable =
      .dropped (hubFullLog 9) ∧ true = true :=
  ⟨newHub_unbuffered_rendezvous.2.2.2.1 0 9 .unserializable,
   newHub_unbuffered_rendezvous.2.2.2.2 true 0 9 .unserializable
     { userID := 9, message := .unserializable } (by decide)⟩

/-- A well-formed send-message body. -/
def c6Payload : SendMessagePayload :=
  { recipientUsername := "bob", senderBlob := "sb", recipientBlob := "rb" }

/-- **C6 (code bug).** On a successful send-message request the handler
persists the message and responds 201 — and that is all: no path of
`handleSendMessage` ever invokes `hub.PushToUser` (the second conjunct
checks every path of the handler), so the claimed persist-then-push
ordering never happens.  Indeed no call site of `PushToUser` exists in the
repository, although hub.go's own comment says it "is the public method
called by handlers to send a message", and `store.SendMessage` does not
even return the persisted record the claim says is pushed. -/
theorem handleSendMessage_never_pushes :
    handleSendMessage true 1 (some c6Payload) (.ok ()) =
      [SendStep.persist 1 c6Payload.recipientUsername c6Payload.senderBlob
        c6Payload.recipientBlob,
       SendStep.respond 201 sentOkBody] ∧
    (∀ authOk senderID body storeResult,
      (handleSendMessage authOk senderID body storeResult).all
        (fun st => ! st.isPushCall) = true) := by
  constructor
  · decide
  · intro authOk senderID body storeResult
    rw [List.all_eq_true]
    intro st hst
    unfold handleSendMessage at hst
    repeat' split at hst
    all_goals simp at hst
    all_goals (first
      | (subst hst; rfl)
      | (rcases hst with rfl | rfl <;> rfl))

/-- **C9.** In `handleServeWS`, whenever a pump is started the trace shows a
completed `client.Register()` strictly earlier, and a construction of the
client with the verified user id strictly before that: pumps are never
started on an unregistered connection. -/
theorem serveWS_register_before_pumps (authOk : Bool) (uid : Int)
    (upgradeOk : Bool) :
    ∀ i : Fin (handleServeWS authOk uid upgradeOk).length,
      ((handleServeWS authOk uid upgradeOk).get i = .startWritePump uid ∨
       (handleServeWS authOk uid upgradeOk).get i = .startReadPump uid) →
      ∃ j : Fin (handleServeWS authOk uid upgradeOk).length,
        j.val < i.val ∧
        (handleServeWS authOk uid upgradeOk).get j = .registerClient uid ∧
        ∃ k : Fin (handleServeWS authOk uid upgradeOk).length,
          k.val < j.val ∧
          (handleServeWS authOk uid upgradeOk).get k = .construct uid := by
  rcases authOk with _ | _ <;> rcases upgradeOk with _ | _
  all_goals intro i hi
  · exact absurd i.isLt (by simp [handleServeWS])
  · exact absurd i.isLt (by simp [handleServeWS])
  · exact absurd i.isLt (by simp [handleServeWS])
  · obtain ⟨iv, hivlt⟩ := i
    have h1 : (1 : Nat) < (handleServeWS true uid true).length := by
      simp [handleServeWS]
    have h0 : (0 : Nat) < (handleServeWS true uid true).length := by
      simp [handleServeWS]
    have hivlt4 : iv < 4 := by simpa [handleServeWS] using hivlt
    interval_cases iv
    · simp [handleServeWS] at hi
    · simp [handleServeWS] at hi
    · exact ⟨⟨1, h1⟩, by show (1:Nat) < 2; norm_num, rfl, ⟨0, h0⟩,
        by show (0:Nat) < 1; norm_num, rfl⟩
    · exact ⟨⟨1, h1⟩, by show (1:Nat) < 3; norm_num, rfl, ⟨0, h0⟩,
        by show (0:Nat) < 1; norm_num, rfl⟩

/-- Witness for `serveWS_register_before_pumps`: in the successful trace for
user 4, the write-pump start at index 2 is preceded by the registration at
index 1 and the construction at index 0. -/
theorem serveWS_register_before_pumps_witness :
    ∃ j : Fin (handleServeWS true 4 true).length,
      j.val < 2 ∧
      (handleServeWS true 4 true).get j = .registerClient 4 ∧
      ∃ k : Fin (handleServeWS true 4 true).length,
        k.val < j.val ∧
        (handleServeWS true 4 true).get k = .construct 4 :=
  serveWS_register_before_pumps true 4 true ⟨2, by decide⟩ (Or.inl (by decide))

/-- Unfolding of `selectRow`: it yields `some mo` exactly when the sender
has a `users` row, with `mo` carrying the sender's username and the
sender-oriented blob. -/
theorem selectRow_eq_some (myID : Int) (users : Int → Option String)
    (m : MessageRow) (mo : MessageOut) :
    selectRow myID users m = some mo ↔
      ∃ nm, users m.senderId = some nm ∧
        mo = { id := m.id, senderId := m.senderId, recipientId := m.recipientId,
               timestamp := m.timestamp, senderUsername := nm,
               encryptedBlob :=
                 if m.senderId = myID then m.senderBlob else m.recipientBlob } := by
  unfold selectRow
  cases h : users m.senderId with
  | none => simp
  | some nm =>
      simp only [Option.some.injEq]
      constructor
      · intro he
        exact ⟨nm, rfl, he.symm⟩
      · rintro ⟨nm', hnm', rfl⟩
        cases hnm'
        rfl

/-- **C8.** `PostgresStore.GetMessages`' query returns exactly the messages
exchanged between the caller and the partner (in either direction) with id
strictly greater than `sinceID` (and, per the `JOIN`, a `users` row for the
sender — always present under the schema's foreign keys), ordered ascending
by timestamp, each carrying the sender's username and the sender-oriented
blob: `sender_blob` when the caller is the sender, `recipient_blob`
otherwise. -/
theorem getMessages_exact (users : Int → Option String) (msgs : List MessageRow)
    (myID partnerID sinceID : Int) :
    List.Pairwise (fun a b : MessageOut => a.timestamp ≤ b.timestamp)
      (getMessagesQuery users msgs myID partnerID sinceID) ∧
    ∀ mo : MessageOut,
      mo ∈ getMessagesQuery users msgs myID partnerID sinceID ↔
        ∃ m ∈ msgs,
          ((m.senderId = myID ∧ m.recipientId = partnerID) ∨
           (m.senderId = partnerID ∧ m.recipientId = myID)) ∧
          sinceID < m.id ∧
          ∃ nm, users m.senderId = some nm ∧
            mo = { id := m.id, senderId := m.senderId,
                   recipientId := m.recipientId, timestamp := m.timestamp,
                   senderUsername := nm,
                   encryptedBlob :=
                     if m.senderId = myID then m.senderBlob
                     else m.recipientBlob } := by
  constructor
  · have hs := @List.sorted_mergeSort MessageOut tsLe
      (fun a b c hab hbc => by
        simp only [tsLe, decide_eq_true_eq] at hab hbc ⊢
        exact le_trans hab hbc)
      (fun a b => by
        simp only [tsLe, Bool.or_eq_true, decide_eq_true_eq]
        exact le_total a.timestamp b.timestamp)
      ((msgs.filter (rowInConversation myID partnerID sinceID)).filterMap
        (selectRow myID users))
    exact hs.imp (fun hab => by
      simpa only [tsLe, decide_eq_true_eq] using hab)
  · intro mo
    unfold getMessagesQuery
    rw [List.mem_mergeSort, List.mem_filterMap]
    constructor
    · rintro ⟨m, hm, hsel⟩
      rw [List.mem_filter] at hm
      obtain ⟨hmem, hconv⟩ := hm
      simp only [rowInConversation, Bool.and_eq_true, Bool.or_eq_true,
        beq_iff_eq, decide_eq_true_eq] at hconv
      obtain ⟨nm, hnm, hmo⟩ := (selectRow_eq_some myID users m mo).mp hsel
      exact ⟨m, hmem, hconv.1, hconv.2, nm, hnm, hmo⟩
    · rintro ⟨m, hmem, hconv, hid, nm, hnm, hmo⟩
      refine ⟨m, ?_, ?_⟩
      · rw [List.mem_filter]
        refine ⟨hmem, ?_⟩
        simp only [rowInConversation, Bool.and_eq_true, Bool.or_eq_true,
          beq_iff_eq, decide_eq_true_eq]
        exact ⟨hconv, hid⟩
      · exact (selectRow_eq_some myID users m mo).mpr ⟨nm, hnm, hmo⟩

def aliceName : String := "alice"

def bobName : String := "bob"

/-- A two-user table: id 1 is alice, id 2 is bob. -/
def c8Users : Int → Option String := fun u =>
  if u = 1 then some aliceName else if u = 2 then some bobName else none

/-- One message from alice (1) to bob (2). -/
def c8Row : MessageRow :=
  { id := 10, senderId := 1, recipientId := 2, timestamp := 100,
    senderBlob := "sblob", recipientBlob := "rblob" }

/-- The row as the caller alice sees it: her own (sender) blob. -/
def c8Out : MessageOut :=
  { id := 10, senderId := 1, recipientId := 2, timestamp := 100,
    senderUsername := aliceName, encryptedBlob := "sblob" }

/-- Witness for `getMessages_exact`: with caller 1 (alice), partner 2 and
`sinceID = 0`, the stored message is returned carrying the sender blob. -/
theorem getMessages_exact_witness :
    c8Out ∈ getMessagesQuery c8Users [c8Row] 1 2 0 :=
  ((getMessages_exact c8Users [c8Row] 1 2 0).2 c8Out).mpr
    ⟨c8Row, by decide, Or.inl ⟨rfl, rfl⟩, by decide, aliceName, rfl, by decide⟩

end Cryptachat
